import Mathlib

/-!
Shallow embedding of the `gnss_analyzer` NMEA parsing core
(`src/gnss_analyzer/core/src/NMEAParser.cpp` together with the headers
`GNSSDataModel.hpp` and `NMEAException.hpp`).

Modelling conventions:
* Qt strings are Lean `String`s; `QString::size`, `left`, `mid` are the
  helpers `qtSize`, `qtLeft`, `qtMid`, `qtMidFrom` below, working on the
  underlying character list.
* `QString::toInt(&ok)` / `QString::toDouble(&ok)` are `qtToIntOpt` /
  `qtToDoubleOpt` (`none` = `ok == false`); without an `ok` out-parameter
  Qt returns `0` on failure, which is `qtToInt` / `qtToDouble`.
  Doubles are modelled as exact rationals `ℚ`; the one non-finite double
  the code manipulates, the `-qInf()` sentinel, is the extra constructor
  `DVal.negInf` of the value type `DVal` used where the code can store it.
* C++ exceptions become an `Option NMEAError` component of the result;
  since `parseGGA` mutates its `GNSSData&` argument in place field by
  field, the model returns the (possibly partially updated) record
  together with the optional error.
* `GNSSData.satellites` is `u_int8_t` in the header, so the assignment
  `data.satellites = tokens[7].toInt()` reduces the parsed int modulo
  2^8; the model stores `(v % 256).toNat`.
* The `for` loop of `parseGSV` is written `for (int i = 4; i+3 < tokens.size(); i+4)`:
  the third clause `i+4` is a discarded-value expression, so `i` never
  changes. The model `gsvLoop` mirrors this literally (the recursive call
  keeps the same index) and takes a fuel parameter; a `none` result means
  the loop ran out of fuel, i.e. the C++ loop does not terminate.
* The session-global accumulation state (`gsvTempSatellites`,
  `expectedGSVParts`) is the explicit `GSVState` threaded through
  `parseGSV` / `parseLine`.
* `QDateTime(QDate::currentDate(), time, Qt::UTC)` depends on the ambient
  clock only through the date part; the model keeps the time-of-day
  (`QTimeV`) and whether the timestamp was set at all.
-/

/-- `c.toNat - '0'.toNat` accumulation, the value of a digit string
(the semantics of Qt's base-10 integer conversion on digit lists). -/
def digitsToNat : List Char → Nat → Nat
  | [], acc => acc
  | c :: cs, acc => digitsToNat cs (acc * 10 + (c.toNat - 48))

/-- `QString::size()`. -/
def qtSize (s : String) : Nat := s.data.length

/-- `QString::left(n)`. -/
def qtLeft (s : String) (n : Nat) : String := String.mk (s.data.take n)

/-- `QString::mid(pos, n)`. -/
def qtMid (s : String) (pos n : Nat) : String := String.mk ((s.data.drop pos).take n)

/-- `QString::mid(pos)`. -/
def qtMidFrom (s : String) (pos : Nat) : String := String.mk (s.data.drop pos)

/-- `QString::toInt(&ok)`: optional sign, then one or more decimal digits
making up the whole string, with the value required to fit a 32-bit
`int`; `none` models `ok == false`. -/
def qtToIntOpt (s : String) : Option Int :=
  let signRest : Int × List Char :=
    match s.data with
    | '+' :: r => (1, r)
    | '-' :: r => (-1, r)
    | r => (1, r)
  let sign := signRest.1
  let rest := signRest.2
  if rest ≠ [] ∧ rest.all Char.isDigit then
    let v : Int := sign * (digitsToNat rest 0 : Nat)
    if -(2 ^ 31) ≤ v ∧ v < 2 ^ 31 then some v else none
  else none

/-- `QString::toInt()` without an `ok` out-parameter: `0` on failure. -/
def qtToInt (s : String) : Int := (qtToIntOpt s).getD 0

/-- Exponent suffix of a C-locale float literal: optional sign, then one
or more digits. -/
def expValue (cs : List Char) : Option Int :=
  match cs with
  | '+' :: r => if r ≠ [] ∧ r.all Char.isDigit then some ((digitsToNat r 0 : Nat) : Int) else none
  | '-' :: r => if r ≠ [] ∧ r.all Char.isDigit then some (-((digitsToNat r 0 : Nat) : Int)) else none
  | r => if r ≠ [] ∧ r.all Char.isDigit then some ((digitsToNat r 0 : Nat) : Int) else none

/-- `QString::toDouble(&ok)`: C-locale decimal literal
`[sign] digits [. digits] [(e|E) [sign] digits]` consuming the whole
string, with at least one mantissa digit; value as an exact rational.
`none` models `ok == false`. -/
def qtToDoubleOpt (s : String) : Option ℚ :=
  let signRest : ℚ × List Char :=
    match s.data with
    | '+' :: r => (1, r)
    | '-' :: r => (-1, r)
    | r => (1, r)
  let sign := signRest.1
  let rest := signRest.2
  let intPart := rest.takeWhile Char.isDigit
  let rest2 := rest.dropWhile Char.isDigit
  match rest2 with
  | [] => if intPart = [] then none else some (sign * (digitsToNat intPart 0 : ℚ))
  | '.' :: r3 =>
    let fracPart := r3.takeWhile Char.isDigit
    let rest4 := r3.dropWhile Char.isDigit
    if intPart = [] ∧ fracPart = [] then none
    else
      let mant : ℚ :=
        (digitsToNat intPart 0 : ℚ) + (digitsToNat fracPart 0 : ℚ) / (10 : ℚ) ^ fracPart.length
      match rest4 with
      | [] => some (sign * mant)
      | 'e' :: r5 => (expValue r5).map (fun e => sign * mant * (10 : ℚ) ^ e)
      | 'E' :: r5 => (expValue r5).map (fun e => sign * mant * (10 : ℚ) ^ e)
      | _ => none
  | 'e' :: r5 =>
    if intPart = [] then none
    else (expValue r5).map (fun e => sign * (digitsToNat intPart 0 : ℚ) * (10 : ℚ) ^ e)
  | 'E' :: r5 =>
    if intPart = [] then none
    else (expValue r5).map (fun e => sign * (digitsToNat intPart 0 : ℚ) * (10 : ℚ) ^ e)
  | _ => none

/-- `QString::toDouble()` without an `ok` out-parameter: `0.0` on failure. -/
def qtToDouble (s : String) : ℚ := (qtToDoubleOpt s).getD 0

/-- A C++ `double` as the code uses it: either an exact finite value or
the `-qInf()` sentinel. -/
inductive DVal
  | fin (q : ℚ)
  | negInf
deriving DecidableEq

/-- `SATInfo` from `GNSSDataModel.hpp`: elevation/azimuth/snr, each
possibly the `-qInf()` sentinel. -/
structure SATInfo where
  elevation : DVal
  azimuth : DVal
  snr : DVal
deriving DecidableEq

/-- A `QTime(hour, minute, second)` value (milliseconds are always 0 in
this code). -/
structure QTimeV where
  hour : Int
  minute : Int
  second : Int
deriving DecidableEq

/-- `QTime(h, m, s).isValid()`. -/
abbrev qtimeValid (h m s : Int) : Prop :=
  0 ≤ h ∧ h ≤ 23 ∧ 0 ≤ m ∧ m ≤ 59 ∧ 0 ≤ s ∧ s ≤ 59

/-- `GNSSData` from `GNSSDataModel.hpp`.  `satellites` is `u_int8_t`
(values in `[0, 256)`); `satMap` (a `QMap<int, SATInfo>`) is an
association list; `timestamp` is `none` while the `QDateTime` is the
default-constructed invalid one, `some t` once set to time-of-day `t`
on the processing date. -/
structure GNSSData where
  satellites : Nat := 0
  latitude : DVal := DVal.fin 0
  longitude : DVal := DVal.fin 0
  altitude : ℚ := 0
  snrAvg : ℚ := 0
  hdop : ℚ := 0
  vdop : ℚ := 0
  satMap : List (Int × SATInfo) := []
  fixType : String := "No fix"
  timestamp : Option QTimeV := none
deriving DecidableEq

/-- The two exception classes of `NMEAException.hpp`: `ParsingError`
(structural) and `InvalidDataError` (semantic), each carrying the
message passed to the constructor. -/
inductive NMEAError
  | parsing (msg : String)
  | invalidData (msg : String)
deriving DecidableEq

/-- `true` exactly on a raised `InvalidDataError` (a semantic error). -/
def isInvalidData : Option NMEAError → Bool
  | some (NMEAError.invalidData _) => true
  | _ => false

/-- `QMap::operator[] =` on the association-list model: update the value
at the key if present, else append the new entry. -/
def mapInsert (k : Int) (v : SATInfo) : List (Int × SATInfo) → List (Int × SATInfo)
  | [] => [(k, v)]
  | (k', v') :: rest => if k = k' then (k, v) :: rest else (k', v') :: mapInsert k v rest

/-- `QMap::contains`-style lookup on the association-list model. -/
def mapLookup (k : Int) : List (Int × SATInfo) → Option SATInfo
  | [] => none
  | (k', v') :: rest => if k = k' then some v' else mapLookup k rest

/-- `DATAType` from `GNSSDataModel.hpp`. -/
inductive DATAType
  | Unknown
  | GGA
  | GSV
deriving DecidableEq

/-- The file-static session state of `NMEAParser.cpp`: the accumulation
map `gsvTempSatellites` and the counter `expectedGSVParts`. -/
structure GSVState where
  gsvTempSatellites : List (Int × SATInfo) := []
  expectedGSVParts : Int := 0
deriving DecidableEq

namespace NMEAParser

/-- The degree-digit width `(direction == "N" || direction == "S") ? 2 : 3`
of `convertToDecimalDegrees`. -/
def convDegDigits (direction : String) : Nat :=
  if direction = "N" ∨ direction = "S" then 2 else 3

/-- `NMEAParser::convertToDecimalDegrees` (NMEAParser.cpp lines 210-240):
degrees-minutes string plus hemisphere letter to signed decimal degrees,
raising `InvalidDataError` on empty inputs, short value strings, or
failed sub-parses. -/
def convertToDecimalDegrees (value direction : String) : Except NMEAError ℚ :=
  if value.data = [] ∨ direction.data = [] then
    .error (.invalidData "InvalidData: Empty latitude/longitude or direction")
  else if qtSize value < convDegDigits direction then
    .error (.invalidData "InvalidData: String too short for degrees")
  else
    match qtToIntOpt (qtLeft value (convDegDigits direction)),
        qtToDoubleOpt (qtMidFrom value (convDegDigits direction)) with
    | some degreePart, some minutePart =>
      let decimalDegrees : ℚ := (degreePart : ℚ) + minutePart / 60
      .ok (if direction = "S" ∨ direction = "W" then -decimalDegrees else decimalDegrees)
    | _, _ => .error (.invalidData "InvalidData: Conversion failed")

/-- `parseGGA`, altitude stage (NMEAParser.cpp lines 88-93): store
`tokens[9].toDouble()` into `data.altitude`, then range-check the stored
field. -/
def ggaAltStep (tokens : List String) (data : GNSSData) : GNSSData × Option NMEAError :=
  if qtToDouble (tokens.getD 9 "") < -500 ∨ qtToDouble (tokens.getD 9 "") > 10000 then
    ({ data with altitude := qtToDouble (tokens.getD 9 "") },
      some (.invalidData "Altitude out of realistic bounds"))
  else ({ data with altitude := qtToDouble (tokens.getD 9 "") }, none)

/-- `parseGGA`, HDOP stage (lines 81-86): store `tokens[8].toDouble()`
into `data.hdop`, range-check the stored field, then the altitude stage. -/
def ggaHdopStep (tokens : List String) (data : GNSSData) : GNSSData × Option NMEAError :=
  if qtToDouble (tokens.getD 8 "") ≤ 0 ∨ qtToDouble (tokens.getD 8 "") > 50 then
    ({ data with hdop := qtToDouble (tokens.getD 8 "") },
      some (.invalidData "HDOP value out of range"))
  else ggaAltStep tokens { data with hdop := qtToDouble (tokens.getD 8 "") }

/-- `parseGGA`, satellite-count stage (lines 74-79): store
`tokens[7].toInt()` into the `u_int8_t` field `data.satellites` (which
reduces the parsed int modulo 256), range-check the stored field (the
source's `data.satellites < 0` test, vacuous on the unsigned field, is
kept), then the HDOP stage. -/
def ggaSatStep (tokens : List String) (data : GNSSData) : GNSSData × Option NMEAError :=
  if ((qtToInt (tokens.getD 7 "")) % 256).toNat < 0 ∨
      ((qtToInt (tokens.getD 7 "")) % 256).toNat > 50 then
    ({ data with satellites := ((qtToInt (tokens.getD 7 "")) % 256).toNat },
      some (.invalidData "Number of satellites out of range"))
  else ggaHdopStep tokens { data with satellites := ((qtToInt (tokens.getD 7 "")) % 256).toNat }

/-- `parseGGA`, fix-quality `switch` on `tokens[6].toInt()` (lines
62-72), then the satellite-count stage. -/
def ggaFixStep (tokens : List String) (data : GNSSData) : GNSSData × Option NMEAError :=
  if qtToInt (tokens.getD 6 "") = 0 then ggaSatStep tokens { data with fixType := "No Fix" }
  else if qtToInt (tokens.getD 6 "") = 1 then ggaSatStep tokens { data with fixType := "GPS Fix" }
  else if qtToInt (tokens.getD 6 "") = 2 then ggaSatStep tokens { data with fixType := "DGPS Fix" }
  else if qtToInt (tokens.getD 6 "") = 4 then ggaSatStep tokens { data with fixType := "RTK Fix" }
  else (data, some (.invalidData
    ("Unknown fix quality code: " ++ toString (qtToInt (tokens.getD 6 "")))))

/-- `NMEAParser::parseGGA` (NMEAParser.cpp lines 13-98): length check,
UTC time, latitude, longitude (with the `-qInf()` sentinel check), then
the fix-quality / satellite-count / HDOP / altitude stages.  The first
component is the record as mutated up to the point of return. -/
def parseGGA (tokens : List String) (data : GNSSData) : GNSSData × Option NMEAError :=
  if tokens.length < 10 then
    (data, some (.parsing "GGA frame too short: expected >=10 fields"))
  else
    let timeStr := tokens.getD 1 ""
    if qtSize timeStr < 6 then
      (data, some (.invalidData "Invalid UTC time in GGA frame"))
    else
      let hour := qtToInt (qtMid timeStr 0 2)
      let minute := qtToInt (qtMid timeStr 2 2)
      let second := qtToInt (qtMid timeStr 4 2)
      let data :=
        if qtimeValid hour minute second then
          { data with timestamp := some ⟨hour, minute, second⟩ }
        else data
      match convertToDecimalDegrees (tokens.getD 2 "") (tokens.getD 3 "") with
      | .error e => (data, some e)
      | .ok lat =>
        let data := { data with latitude := DVal.fin lat }
        match convertToDecimalDegrees (tokens.getD 4 "") (tokens.getD 5 "") with
        | .error e => (data, some e)
        | .ok lon =>
          let data := { data with longitude := DVal.fin lon }
          if data.longitude = DVal.negInf then
            (data, some (.invalidData "Longitude conversion failed"))
          else ggaFixStep tokens data

/-- The satellite-tuple loop of `parseGSV` (NMEAParser.cpp lines 158-181):
`for (int i = 4; i+3 < tokens.size(); i+4) { ... }`.  The doubled in-body
guard `if (i + 3 >= tokens.size()) break;` is kept (it is unreachable
under the loop condition).  The loop's third clause `i+4` discards its
value, so the recursive call keeps the index unchanged; `fuel` bounds the
number of iterations the model will run, with `none` meaning the C++
loop has not terminated within that bound. -/
def gsvLoop (tokens : List String) : Nat → Nat → List (Int × SATInfo) → Option (List (Int × SATInfo))
  | 0, _, _ => none
  | fuel + 1, i, m =>
    if i + 3 < tokens.length then
      if i + 3 ≥ tokens.length then some m
      else
        let idOpt := qtToIntOpt (tokens.getD i "")
        let elevOpt := qtToDoubleOpt (tokens.getD (i + 1) "")
        let azimOpt := qtToDoubleOpt (tokens.getD (i + 2) "")
        let snrOpt := qtToDoubleOpt (tokens.getD (i + 3) "")
        let m' :=
          match idOpt with
          | none => m
          | some id =>
            if id ≤ 0 then m
            else
              let info : SATInfo :=
                { elevation := match elevOpt with | some q => DVal.fin q | none => DVal.negInf
                  azimuth := match azimOpt with | some q => DVal.fin q | none => DVal.negInf
                  snr := match snrOpt with | some q => DVal.fin q | none => DVal.negInf }
              mapInsert id info m
        gsvLoop tokens fuel i m'
    else some m

/-- `NMEAParser::parseGSV` (NMEAParser.cpp lines 138-189): length check,
header fields, reset of the session state when the message index is 1,
then the satellite-tuple loop.  The C++ signature also takes a
`GNSSData&` it never touches, so the model threads only the session
state; `none` means the tuple loop did not terminate within `fuel`. -/
def parseGSV (fuel : Nat) (tokens : List String) (st : GSVState) :
    Option (GSVState × Option NMEAError) :=
  if tokens.length < 4 then
    some (st, some (.parsing "GSV frame too short: expected >=4 fields"))
  else
    let totalMsgs := qtToInt (tokens.getD 1 "")
    let msgNum := qtToInt (tokens.getD 2 "")
    let _totalSats := qtToInt (tokens.getD 3 "")
    let st :=
      if msgNum = 1 then
        { gsvTempSatellites := [], expectedGSVParts := totalMsgs }
      else st
    match gsvLoop tokens fuel 4 st.gsvTempSatellites with
    | none => none
    | some m => some ({ st with gsvTempSatellites := m }, none)

/-- `QString::startsWith` on the character-list model. -/
def qtStartsWith (s pre : String) : Bool := pre.data.isPrefixOf s.data

/-- `QString::split(",")` on the character-list model. -/
def splitAux : List Char → List Char → List String
  | [], acc => [String.mk acc.reverse]
  | c :: cs, acc =>
    if c = ',' then String.mk acc.reverse :: splitAux cs [] else splitAux cs (c :: acc)

/-- `line.split(",")`. -/
def splitOnComma (s : String) : List String := splitAux s.data []

/-- `NMEAParser::DataType` (NMEAParser.cpp lines 243-257): classify a raw
line by prefix. -/
def DataType (line : String) : DATAType :=
  if qtStartsWith line "$GPGGA" then DATAType.GGA
  else if qtStartsWith line "$GPGSV" then DATAType.GSV
  else DATAType.Unknown

/-- `NMEAParser::parseLine` (NMEAParser.cpp lines 259-278): classify,
tokenize on commas, dispatch; unknown kinds are a no-op.  Result carries
the fix record, the GSV session state, and the optional raised error;
`none` again means a non-terminating `parseGSV` tuple loop. -/
def parseLine (fuel : Nat) (line : String) (data : GNSSData) (st : GSVState) :
    Option (GNSSData × GSVState × Option NMEAError) :=
  match DataType line with
  | DATAType.GGA =>
    some ((parseGGA (splitOnComma line) data).1, st, (parseGGA (splitOnComma line) data).2)
  | DATAType.GSV =>
    match parseGSV fuel (splitOnComma line) st with
    | none => none
    | some r => some (data, r.1, r.2)
  | DATAType.Unknown => some (data, st, none)

end NMEAParser

/-!  Verification.  The Batteries rational-number operations are
`@[irreducible]`; they are made semireducible here so that concrete
runs of the parsers can be settled by `decide`. -/

attribute [local semireducible] Rat.add Rat.mul Rat.inv Rat.ofScientific Rat.sub

deriving instance DecidableEq for Except

open NMEAParser

/-- Successful-branch shape of the coordinate converter. -/
lemma convert_ok_shape (value direction : String) (dp : Int) (mp : ℚ)
    (hne : ¬ (value.data = [] ∨ direction.data = []))
    (hlen : ¬ qtSize value < convDegDigits direction)
    (hdp : qtToIntOpt (qtLeft value (convDegDigits direction)) = some dp)
    (hmp : qtToDoubleOpt (qtMidFrom value (convDegDigits direction)) = some mp) :
    convertToDecimalDegrees value direction =
      .ok (if direction = "S" ∨ direction = "W"
            then -((dp : ℚ) + mp / 60) else ((dp : ℚ) + mp / 60)) := by
  unfold convertToDecimalDegrees
  rw [if_neg hne, if_neg hlen, hdp, hmp]

/-- Every error the coordinate converter raises is an `InvalidDataError`. -/
lemma convert_error_invalidData (value direction : String) (e : NMEAError)
    (h : convertToDecimalDegrees value direction = .error e) :
    ∃ m, e = NMEAError.invalidData m := by
  unfold convertToDecimalDegrees at h
  split at h
  · exact ⟨_, (Except.error.injEq _ _).mp h.symm⟩
  · split at h
    · exact ⟨_, (Except.error.injEq _ _).mp h.symm⟩
    · split at h
      · exact absurd h (by simp)
      · exact ⟨_, (Except.error.injEq _ _).mp h.symm⟩

/-- The coordinate converter succeeds exactly when no failure condition
holds. -/
lemma convert_ok_iff (value direction : String) :
    (∃ q, convertToDecimalDegrees value direction = .ok q) ↔
      ¬ (value.data = [] ∨ direction.data = [] ∨
         qtSize value < convDegDigits direction ∨
         qtToIntOpt (qtLeft value (convDegDigits direction)) = none ∨
         qtToDoubleOpt (qtMidFrom value (convDegDigits direction)) = none) := by
  unfold convertToDecimalDegrees
  by_cases h1 : value.data = [] ∨ direction.data = []
  · simp [h1]
    tauto
  · rw [if_neg h1]
    by_cases h2 : qtSize value < convDegDigits direction
    · simp [h1, h2]
    · rw [if_neg h2]
      cases hdp : qtToIntOpt (qtLeft value (convDegDigits direction)) with
      | none => simp [h1, h2, hdp]
      | some dp =>
        cases hmp : qtToDoubleOpt (qtMidFrom value (convDegDigits direction)) with
        | none => simp [h1, h2, hdp, hmp]
        | some mp => simp [h1, h2, hdp, hmp]

/-- C6: `convertToDecimalDegrees` raises a semantic error if and only if
the value string is empty, the hemisphere string is empty, the value
string is shorter than the degree-digit width (2 for `N`/`S`, 3
otherwise), or the integer degree prefix or the floating minutes suffix
fails to parse; in all other cases it returns normally, and every raised
error is an `InvalidDataError` (a semantic error). -/
theorem c6_convert_error_iff (value direction : String) :
    ((∃ q, convertToDecimalDegrees value direction = .ok q) ↔
      ¬ (value.data = [] ∨ direction.data = [] ∨
         qtSize value < convDegDigits direction ∨
         qtToIntOpt (qtLeft value (convDegDigits direction)) = none ∨
         qtToDoubleOpt (qtMidFrom value (convDegDigits direction)) = none))
    ∧ ∀ e, convertToDecimalDegrees value direction = .error e →
        ∃ m, e = NMEAError.invalidData m :=
  ⟨convert_ok_iff value direction, convert_error_invalidData value direction⟩

/-- Witness for C6 at the value `"4807.038"` with hemisphere `"N"`. -/
theorem c6_convert_error_iff_witness :
    ∃ q, convertToDecimalDegrees "4807.038" "N" = .ok q :=
  (c6_convert_error_iff "4807.038" "N").1.mpr (by decide)

/-- Negating the hemisphere: if a value converts under a non-negating
direction, it converts to the negated result under a negating direction
of the same degree-digit width. -/
lemma convert_flip (v d₁ d₂ : String) (q : ℚ)
    (hdd : convDegDigits d₁ = convDegDigits d₂)
    (hd₂ : d₂.data ≠ [])
    (hneg₁ : ¬ (d₁ = "S" ∨ d₁ = "W"))
    (hneg₂ : d₂ = "S" ∨ d₂ = "W")
    (h : convertToDecimalDegrees v d₁ = .ok q) :
    convertToDecimalDegrees v d₂ = .ok (-q) := by
  have hcond := (convert_ok_iff v d₁).mp ⟨q, h⟩
  push_neg at hcond
  obtain ⟨hv, hd1, hlen, hdpne, hmpne⟩ := hcond
  obtain ⟨dp, hdp⟩ := Option.ne_none_iff_exists'.mp hdpne
  obtain ⟨mp, hmp⟩ := Option.ne_none_iff_exists'.mp hmpne
  have h1 := convert_ok_shape v d₁ dp mp (by tauto) (Nat.not_lt.mpr hlen) hdp hmp
  rw [h, if_neg hneg₁] at h1
  injection h1 with hq
  have h2 := convert_ok_shape v d₂ dp mp (by tauto) (Nat.not_lt.mpr (hdd ▸ hlen))
    (hdd ▸ hdp) (hdd ▸ hmp)
  rw [if_pos hneg₂] at h2
  rw [h2, hq]

/-- Negating the hemisphere, reverse direction: from a negating
direction to a non-negating one of the same degree-digit width. -/
lemma convert_flip_rev (v d₁ d₂ : String) (q : ℚ)
    (hdd : convDegDigits d₁ = convDegDigits d₂)
    (hd₂ : d₂.data ≠ [])
    (hneg₁ : d₁ = "S" ∨ d₁ = "W")
    (hneg₂ : ¬ (d₂ = "S" ∨ d₂ = "W"))
    (h : convertToDecimalDegrees v d₁ = .ok q) :
    convertToDecimalDegrees v d₂ = .ok (-q) := by
  have hcond := (convert_ok_iff v d₁).mp ⟨q, h⟩
  push_neg at hcond
  obtain ⟨hv, hd1, hlen, hdpne, hmpne⟩ := hcond
  obtain ⟨dp, hdp⟩ := Option.ne_none_iff_exists'.mp hdpne
  obtain ⟨mp, hmp⟩ := Option.ne_none_iff_exists'.mp hmpne
  have h1 := convert_ok_shape v d₁ dp mp (by tauto) (Nat.not_lt.mpr hlen) hdp hmp
  rw [h, if_pos hneg₁] at h1
  injection h1 with hq
  have h2 := convert_ok_shape v d₂ dp mp (by tauto) (Nat.not_lt.mpr (hdd ▸ hlen))
    (hdd ▸ hdp) (hdd ▸ hmp)
  rw [if_neg hneg₂] at h2
  rw [h2, hq, neg_neg]

/-- C7: the coordinate converter is deterministic (a pure function of
its two inputs), and on every value string where it succeeds,
converting with hemisphere `S` gives the negation of converting with
`N` and vice versa, and likewise for `W` against `E`. -/
theorem c7_convert_deterministic_negation (v h : String) (q : ℚ) :
    (∀ r₁ r₂ : Except NMEAError ℚ,
        convertToDecimalDegrees v h = r₁ → convertToDecimalDegrees v h = r₂ → r₁ = r₂)
    ∧ (convertToDecimalDegrees v "N" = .ok q → convertToDecimalDegrees v "S" = .ok (-q))
    ∧ (convertToDecimalDegrees v "E" = .ok q → convertToDecimalDegrees v "W" = .ok (-q))
    ∧ (convertToDecimalDegrees v "S" = .ok q → convertToDecimalDegrees v "N" = .ok (-q))
    ∧ (convertToDecimalDegrees v "W" = .ok q → convertToDecimalDegrees v "E" = .ok (-q)) := by
  refine ⟨fun r₁ r₂ h₁ h₂ => h₁.symm.trans h₂, ?_, ?_, ?_, ?_⟩
  · exact fun hN => convert_flip v "N" "S" q (by decide) (by decide) (by decide) (by decide) hN
  · exact fun hE => convert_flip v "E" "W" q (by decide) (by decide) (by decide) (by decide) hE
  · exact fun hS =>
      convert_flip_rev v "S" "N" q (by decide) (by decide) (by decide) (by decide) hS
  · exact fun hW =>
      convert_flip_rev v "W" "E" q (by decide) (by decide) (by decide) (by decide) hW

/-- Witness for C7: `"4807.038"` converts to `48.1173` under `N` and to
`-48.1173` under `S`. -/
theorem c7_convert_deterministic_negation_witness :
    convertToDecimalDegrees "4807.038" "S" = .ok (-(481173 / 10000 : ℚ)) :=
  (c7_convert_deterministic_negation "4807.038" "N" (481173 / 10000)).2.1 (by decide)

/-- Hour group of the GGA time token. -/
def ggaHour (tokens : List String) : Int := qtToInt (qtMid (tokens.getD 1 "") 0 2)

/-- Minute group of the GGA time token. -/
def ggaMinute (tokens : List String) : Int := qtToInt (qtMid (tokens.getD 1 "") 2 2)

/-- Second group of the GGA time token. -/
def ggaSecond (tokens : List String) : Int := qtToInt (qtMid (tokens.getD 1 "") 4 2)

lemma ggaAltStep_pres (tokens : List String) (data : GNSSData) :
    (ggaAltStep tokens data).1.timestamp = data.timestamp ∧
    (ggaAltStep tokens data).1.fixType = data.fixType ∧
    (ggaAltStep tokens data).1.satellites = data.satellites ∧
    (ggaAltStep tokens data).1.hdop = data.hdop ∧
    (ggaAltStep tokens data).1.altitude = qtToDouble (tokens.getD 9 "") := by
  unfold ggaAltStep
  split <;> simp

lemma ggaAltStep_error (tokens : List String) (data : GNSSData) (e : NMEAError)
    (h : (ggaAltStep tokens data).2 = some e) :
    e = .invalidData "Altitude out of realistic bounds" := by
  unfold ggaAltStep at h
  split at h <;> simp_all

lemma ggaAltStep_none_iff (tokens : List String) (data : GNSSData) :
    (ggaAltStep tokens data).2 = none ↔
      (-500 ≤ qtToDouble (tokens.getD 9 "") ∧ qtToDouble (tokens.getD 9 "") ≤ 10000) := by
  unfold ggaAltStep
  split
  · rename_i hc
    constructor
    · intro h
      exact absurd h (by simp)
    · rintro ⟨h1, h2⟩
      rcases hc with hc | hc
      · exact absurd h1 (by linarith)
      · exact absurd h2 (by linarith)
  · rename_i hc
    push_neg at hc
    exact iff_of_true rfl hc

lemma ggaHdopStep_pres (tokens : List String) (data : GNSSData) :
    (ggaHdopStep tokens data).1.timestamp = data.timestamp ∧
    (ggaHdopStep tokens data).1.fixType = data.fixType ∧
    (ggaHdopStep tokens data).1.satellites = data.satellites ∧
    (ggaHdopStep tokens data).1.hdop = qtToDouble (tokens.getD 8 "") := by
  unfold ggaHdopStep
  split
  · simp
  · have h := ggaAltStep_pres tokens { data with hdop := qtToDouble (tokens.getD 8 "") }
    exact ⟨h.1, h.2.1, h.2.2.1, by rw [h.2.2.2.1]⟩

lemma ggaHdopStep_error (tokens : List String) (data : GNSSData) (e : NMEAError)
    (h : (ggaHdopStep tokens data).2 = some e) :
    e = .invalidData "HDOP value out of range" ∨
    e = .invalidData "Altitude out of realistic bounds" := by
  unfold ggaHdopStep at h
  split at h
  · left
    simp_all
  · right
    exact ggaAltStep_error tokens _ e h

lemma ggaHdopStep_none_iff (tokens : List String) (data : GNSSData) :
    (ggaHdopStep tokens data).2 = none ↔
      (0 < qtToDouble (tokens.getD 8 "") ∧ qtToDouble (tokens.getD 8 "") ≤ 50 ∧
       -500 ≤ qtToDouble (tokens.getD 9 "") ∧ qtToDouble (tokens.getD 9 "") ≤ 10000) := by
  unfold ggaHdopStep
  split
  · rename_i hc
    constructor
    · intro h
      exact absurd h (by simp)
    · rintro ⟨h1, h2, _⟩
      rcases hc with hc | hc
      · exact absurd h1 (by linarith)
      · exact absurd h2 (by linarith)
  · rename_i hc
    push_neg at hc
    rw [ggaAltStep_none_iff]
    constructor
    · exact fun h => ⟨hc.1, hc.2, h⟩
    · exact fun h => ⟨h.2.2.1, h.2.2.2⟩

lemma ggaSatStep_pres (tokens : List String) (data : GNSSData) :
    (ggaSatStep tokens data).1.timestamp = data.timestamp ∧
    (ggaSatStep tokens data).1.fixType = data.fixType ∧
    (ggaSatStep tokens data).1.satellites = ((qtToInt (tokens.getD 7 "")) % 256).toNat := by
  unfold ggaSatStep
  split
  · simp
  · have h := ggaHdopStep_pres tokens
      { data with satellites := ((qtToInt (tokens.getD 7 "")) % 256).toNat }
    exact ⟨h.1, h.2.1, by rw [h.2.2.1]⟩

lemma ggaSatStep_error (tokens : List String) (data : GNSSData) (e : NMEAError)
    (h : (ggaSatStep tokens data).2 = some e) :
    e = .invalidData "Number of satellites out of range" ∨
    e = .invalidData "HDOP value out of range" ∨
    e = .invalidData "Altitude out of realistic bounds" := by
  unfold ggaSatStep at h
  split at h
  · left
    simp_all
  · right
    exact ggaHdopStep_error tokens _ e h

lemma ggaSatStep_none_iff (tokens : List String) (data : GNSSData) :
    (ggaSatStep tokens data).2 = none ↔
      (((qtToInt (tokens.getD 7 "")) % 256).toNat ≤ 50 ∧
       0 < qtToDouble (tokens.getD 8 "") ∧ qtToDouble (tokens.getD 8 "") ≤ 50 ∧
       -500 ≤ qtToDouble (tokens.getD 9 "") ∧ qtToDouble (tokens.getD 9 "") ≤ 10000) := by
  unfold ggaSatStep
  split
  · rename_i hc
    constructor
    · intro h
      exact absurd h (by simp)
    · rintro ⟨h1, _⟩
      rcases hc with hc | hc
      · exact absurd hc (by omega)
      · exact absurd h1 (by omega)
  · rename_i hc
    push_neg at hc
    rw [ggaHdopStep_none_iff]
    constructor
    · exact fun h => ⟨hc.2, h⟩
    · exact fun h => h.2

lemma ggaHdopStep_none_alt (tokens : List String) (data : GNSSData)
    (h : (ggaHdopStep tokens data).2 = none) :
    (ggaHdopStep tokens data).1.altitude = qtToDouble (tokens.getD 9 "") := by
  by_cases hc : qtToDouble (tokens.getD 8 "") ≤ 0 ∨ qtToDouble (tokens.getD 8 "") > 50
  · simp only [ggaHdopStep] at h
    rw [if_pos hc] at h
    exact absurd h (by simp)
  · simp only [ggaHdopStep]
    rw [if_neg hc]
    exact (ggaAltStep_pres tokens _).2.2.2.2

lemma ggaSatStep_none_fields (tokens : List String) (data : GNSSData)
    (h : (ggaSatStep tokens data).2 = none) :
    (ggaSatStep tokens data).1.satellites = ((qtToInt (tokens.getD 7 "")) % 256).toNat ∧
    (ggaSatStep tokens data).1.hdop = qtToDouble (tokens.getD 8 "") ∧
    (ggaSatStep tokens data).1.altitude = qtToDouble (tokens.getD 9 "") := by
  by_cases hc : ((qtToInt (tokens.getD 7 "")) % 256).toNat < 0 ∨
      ((qtToInt (tokens.getD 7 "")) % 256).toNat > 50
  · simp only [ggaSatStep] at h
    rw [if_pos hc] at h
    exact absurd h (by simp)
  · simp only [ggaSatStep] at h ⊢
    rw [if_neg hc] at h ⊢
    refine ⟨?_, (ggaHdopStep_pres tokens _).2.2.2, ggaHdopStep_none_alt tokens _ h⟩
    rw [(ggaHdopStep_pres tokens _).2.2.1]

lemma ggaFixStep_pres_timestamp (tokens : List String) (data : GNSSData) :
    (ggaFixStep tokens data).1.timestamp = data.timestamp := by
  simp only [ggaFixStep]
  split_ifs <;> first
    | exact (ggaSatStep_pres tokens _).1
    | rfl

lemma ggaFixStep_map (tokens : List String) (data : GNSSData) :
    (qtToInt (tokens.getD 6 "") = 0 → (ggaFixStep tokens data).1.fixType = "No Fix") ∧
    (qtToInt (tokens.getD 6 "") = 1 → (ggaFixStep tokens data).1.fixType = "GPS Fix") ∧
    (qtToInt (tokens.getD 6 "") = 2 → (ggaFixStep tokens data).1.fixType = "DGPS Fix") ∧
    (qtToInt (tokens.getD 6 "") = 4 → (ggaFixStep tokens data).1.fixType = "RTK Fix") ∧
    (qtToInt (tokens.getD 6 "") ≠ 0 → qtToInt (tokens.getD 6 "") ≠ 1 →
      qtToInt (tokens.getD 6 "") ≠ 2 → qtToInt (tokens.getD 6 "") ≠ 4 →
      ggaFixStep tokens data =
        (data, some (.invalidData
          ("Unknown fix quality code: " ++ toString (qtToInt (tokens.getD 6 "")))))) := by
  simp only [ggaFixStep]
  refine ⟨?_, ?_, ?_, ?_, ?_⟩
  · intro h
    rw [if_pos h]
    exact (ggaSatStep_pres tokens _).2.1
  · intro h
    rw [if_neg (by omega), if_pos h]
    exact (ggaSatStep_pres tokens _).2.1
  · intro h
    rw [if_neg (by omega), if_neg (by omega), if_pos h]
    exact (ggaSatStep_pres tokens _).2.1
  · intro h
    rw [if_neg (by omega), if_neg (by omega), if_neg (by omega), if_pos h]
    exact (ggaSatStep_pres tokens _).2.1
  · intro h0 h1 h2 h4
    rw [if_neg h0, if_neg h1, if_neg h2, if_neg h4]

lemma ggaFixStep_error (tokens : List String) (data : GNSSData) (e : NMEAError)
    (h : (ggaFixStep tokens data).2 = some e) :
    ∃ m, e = NMEAError.invalidData m := by
  have esat : ∀ d : GNSSData, (ggaSatStep tokens d).2 = some e →
      ∃ m, e = NMEAError.invalidData m := by
    intro d hh
    rcases ggaSatStep_error tokens d e hh with h' | h' | h' <;> exact ⟨_, h'⟩
  simp only [ggaFixStep] at h
  split_ifs at h
  · exact esat _ h
  · exact esat _ h
  · exact esat _ h
  · exact esat _ h
  · simp only [Prod.snd] at h
    exact ⟨_, (Option.some.injEq _ _).mp h.symm⟩

lemma ggaFixStep_none_fields (tokens : List String) (data : GNSSData)
    (h : (ggaFixStep tokens data).2 = none) :
    ((qtToInt (tokens.getD 7 "")) % 256).toNat ≤ 50 ∧
    0 < qtToDouble (tokens.getD 8 "") ∧ qtToDouble (tokens.getD 8 "") ≤ 50 ∧
    -500 ≤ qtToDouble (tokens.getD 9 "") ∧ qtToDouble (tokens.getD 9 "") ≤ 10000 ∧
    (ggaFixStep tokens data).1.satellites = ((qtToInt (tokens.getD 7 "")) % 256).toNat ∧
    (ggaFixStep tokens data).1.hdop = qtToDouble (tokens.getD 8 "") ∧
    (ggaFixStep tokens data).1.altitude = qtToDouble (tokens.getD 9 "") := by
  simp only [ggaFixStep] at h ⊢
  split_ifs at h ⊢ <;>
    · obtain ⟨r1, r2, r3, r4, r5⟩ := (ggaSatStep_none_iff tokens _).mp h
      obtain ⟨f1, f2, f3⟩ := ggaSatStep_none_fields tokens _ h
      exact ⟨r1, r2, r3, r4, r5, f1, f2, f3⟩

lemma parseGGA_eq_fixStep (tokens : List String) (data : GNSSData) (lat lon : ℚ)
    (hlen : ¬ tokens.length < 10)
    (htime : ¬ qtSize (tokens.getD 1 "") < 6)
    (hlat : convertToDecimalDegrees (tokens.getD 2 "") (tokens.getD 3 "") = .ok lat)
    (hlon : convertToDecimalDegrees (tokens.getD 4 "") (tokens.getD 5 "") = .ok lon) :
    parseGGA tokens data =
      ggaFixStep tokens
        { (if qtimeValid (ggaHour tokens) (ggaMinute tokens) (ggaSecond tokens) then
             { data with timestamp := some ⟨ggaHour tokens, ggaMinute tokens, ggaSecond tokens⟩ }
           else data) with
          latitude := DVal.fin lat, longitude := DVal.fin lon } := by
  simp only [parseGGA, ggaHour, ggaMinute, ggaSecond]
  rw [if_neg hlen, if_neg htime, hlat, hlon]
  simp

lemma parseGGA_error_invalidData (tokens : List String) (data : GNSSData) (e : NMEAError)
    (hlen : ¬ tokens.length < 10)
    (h : (parseGGA tokens data).2 = some e) :
    ∃ m, e = NMEAError.invalidData m := by
  by_cases htime : qtSize (tokens.getD 1 "") < 6
  · simp only [parseGGA] at h
    rw [if_neg hlen, if_pos htime] at h
    simp only [Prod.snd] at h
    exact ⟨_, (Option.some.injEq _ _).mp h.symm⟩
  · rcases hc1 : convertToDecimalDegrees (tokens.getD 2 "") (tokens.getD 3 "") with e₁ | lat
    · simp only [parseGGA] at h
      rw [if_neg hlen, if_neg htime, hc1] at h
      simp only [Prod.snd] at h
      obtain ⟨m, hm⟩ := convert_error_invalidData _ _ _ hc1
      exact ⟨m, by rw [← (Option.some.injEq _ _).mp h, hm]⟩
    · rcases hc2 : convertToDecimalDegrees (tokens.getD 4 "") (tokens.getD 5 "") with e₂ | lon
      · simp only [parseGGA] at h
        rw [if_neg hlen, if_neg htime, hc1, hc2] at h
        simp only [Prod.snd] at h
        obtain ⟨m, hm⟩ := convert_error_invalidData _ _ _ hc2
        exact ⟨m, by rw [← (Option.some.injEq _ _).mp h, hm]⟩
      · rw [parseGGA_eq_fixStep tokens data lat lon hlen htime hc1 hc2] at h
        exact ggaFixStep_error tokens _ e h

lemma parseGGA_none_fields (tokens : List String) (data : GNSSData)
    (h : (parseGGA tokens data).2 = none) :
    ((qtToInt (tokens.getD 7 "")) % 256).toNat ≤ 50 ∧
    0 < qtToDouble (tokens.getD 8 "") ∧ qtToDouble (tokens.getD 8 "") ≤ 50 ∧
    -500 ≤ qtToDouble (tokens.getD 9 "") ∧ qtToDouble (tokens.getD 9 "") ≤ 10000 ∧
    (parseGGA tokens data).1.satellites = ((qtToInt (tokens.getD 7 "")) % 256).toNat ∧
    (parseGGA tokens data).1.hdop = qtToDouble (tokens.getD 8 "") ∧
    (parseGGA tokens data).1.altitude = qtToDouble (tokens.getD 9 "") := by
  by_cases hlen : tokens.length < 10
  · simp only [parseGGA] at h
    rw [if_pos hlen] at h
    simp at h
  · by_cases htime : qtSize (tokens.getD 1 "") < 6
    · simp only [parseGGA] at h
      rw [if_neg hlen, if_pos htime] at h
      simp at h
    · rcases hc1 : convertToDecimalDegrees (tokens.getD 2 "") (tokens.getD 3 "") with e₁ | lat
      · simp only [parseGGA] at h
        rw [if_neg hlen, if_neg htime, hc1] at h
        simp at h
      · rcases hc2 : convertToDecimalDegrees (tokens.getD 4 "") (tokens.getD 5 "") with e₂ | lon
        · simp only [parseGGA] at h
          rw [if_neg hlen, if_neg htime, hc1, hc2] at h
          simp at h
        · rw [parseGGA_eq_fixStep tokens data lat lon hlen htime hc1 hc2] at h ⊢
          exact ggaFixStep_none_fields tokens _ h

lemma parseGGA_timestamp_valid (tokens : List String) (data : GNSSData)
    (hlen : ¬ tokens.length < 10)
    (htime : ¬ qtSize (tokens.getD 1 "") < 6)
    (hq : qtimeValid (ggaHour tokens) (ggaMinute tokens) (ggaSecond tokens)) :
    (parseGGA tokens data).1.timestamp =
      some ⟨ggaHour tokens, ggaMinute tokens, ggaSecond tokens⟩ := by
  rcases hc1 : convertToDecimalDegrees (tokens.getD 2 "") (tokens.getD 3 "") with e₁ | lat
  · simp only [parseGGA]
    rw [if_neg hlen, if_neg htime, hc1]
    dsimp only
    split
    · exact rfl
    · rename_i hcond
      exact absurd hq hcond
  · rcases hc2 : convertToDecimalDegrees (tokens.getD 4 "") (tokens.getD 5 "") with e₂ | lon
    · simp only [parseGGA]
      rw [if_neg hlen, if_neg htime, hc1, hc2]
      dsimp only
      split
      · exact rfl
      · rename_i hcond
        exact absurd hq hcond
    · rw [parseGGA_eq_fixStep tokens data lat lon hlen htime hc1 hc2,
        ggaFixStep_pres_timestamp]
      dsimp only
      split
      · exact rfl
      · rename_i hcond
        exact absurd hq hcond

/-- Absolute value on the exact rationals (for the "within 0.002" claims). -/
def ratAbs (q : ℚ) : ℚ := if q < 0 then -q else q

lemma ggaSatStep_snd_cases (tokens : List String) (data : GNSSData) :
    (ggaSatStep tokens data).2 = none ∨
    (ggaSatStep tokens data).2 = some (.invalidData "Number of satellites out of range") ∨
    (ggaSatStep tokens data).2 = some (.invalidData "HDOP value out of range") ∨
    (ggaSatStep tokens data).2 = some (.invalidData "Altitude out of realistic bounds") := by
  cases he : (ggaSatStep tokens data).2 with
  | none => exact Or.inl rfl
  | some e =>
    rcases ggaSatStep_error tokens data e he with h | h | h <;> subst h
    · exact Or.inr (Or.inl rfl)
    · exact Or.inr (Or.inr (Or.inl rfl))
    · exact Or.inr (Or.inr (Or.inr rfl))

/-- The GGA sentence of the spec's first end-to-end scenario. -/
def ggaLine : String := "$GPGGA,123519,4807.038,N,11131.000,E,1,08,0.9,545.4,M,,*47"

/-- Token list with satellite-count field `"256"`: 256 is outside
`[0, 50]` but is truncated to `0` by the `u_int8_t` field. -/
def gga256Tokens : List String :=
  ["$GPGGA", "123519", "4807.038", "N", "11131.000", "E", "1", "256", "0.9", "545.4"]

/-- Token list with satellite-count field `"51"`. -/
def gga51Tokens : List String :=
  ["$GPGGA", "123519", "4807.038", "N", "11131.000", "E", "1", "51", "0.9", "545.4"]

/-- Token list with HDOP field `"0"`. -/
def ggaHdop0Tokens : List String :=
  ["$GPGGA", "123519", "4807.038", "N", "11131.000", "E", "1", "08", "0", "545.4"]

/-- Token list with HDOP `"50.0"` and altitude `"-500"` (both boundary
values the spec declares valid). -/
def ggaBoundTokens : List String :=
  ["$GPGGA", "123519", "4807.038", "N", "11131.000", "E", "1", "08", "50.0", "-500"]

/-- Token list with altitude `"10000"` (boundary value the spec declares
valid). -/
def ggaAlt10000Tokens : List String :=
  ["$GPGGA", "123519", "4807.038", "N", "11131.000", "E", "1", "08", "0.9", "10000"]

/-- C2 counterexample: with satellite-count token `"256"` the parsed
satellite count `tokens[7].toInt() = 256` lies outside `[0, 50]`, yet
`parseGGA` raises no error at all — the `u_int8_t` field truncates the
value to `0` before the range check, and `0` is stored. -/
theorem c2_range_counterexample :
    qtToInt (gga256Tokens.getD 7 "") = 256 ∧
    ¬ (0 ≤ qtToInt (gga256Tokens.getD 7 "") ∧ qtToInt (gga256Tokens.getD 7 "") ≤ 50) ∧
    (parseGGA gga256Tokens {}).2 = none ∧
    (parseGGA gga256Tokens {}).1.satellites = 0 := by decide

/-- C2 as amended: the range check on the satellite count applies to the
value stored in the `u_int8_t` field, i.e. `tokens[7].toInt()` reduced
modulo 256; with at least 10 tokens, `parseGGA` raises a semantic error
whenever that stored count exceeds 50, the parsed HDOP lies outside
`(0, 50]`, or the parsed altitude lies outside `[-500, 10000]`; on
success all three are in range and stored.  The boundary conjuncts:
satellite count 51 is rejected, HDOP 0 is rejected, HDOP 50.0 and
altitudes -500 and 10000 are accepted. -/
theorem c2_range_checks (tokens : List String) (data : GNSSData)
    (hlen : ¬ tokens.length < 10) :
    ((((qtToInt (tokens.getD 7 "")) % 256).toNat > 50 ∨
      qtToDouble (tokens.getD 8 "") ≤ 0 ∨ qtToDouble (tokens.getD 8 "") > 50 ∨
      qtToDouble (tokens.getD 9 "") < -500 ∨ qtToDouble (tokens.getD 9 "") > 10000) →
        isInvalidData (parseGGA tokens data).2 = true)
    ∧ ((parseGGA tokens data).2 = none →
        ((qtToInt (tokens.getD 7 "")) % 256).toNat ≤ 50 ∧
        0 < qtToDouble (tokens.getD 8 "") ∧ qtToDouble (tokens.getD 8 "") ≤ 50 ∧
        -500 ≤ qtToDouble (tokens.getD 9 "") ∧ qtToDouble (tokens.getD 9 "") ≤ 10000 ∧
        (parseGGA tokens data).1.satellites = ((qtToInt (tokens.getD 7 "")) % 256).toNat ∧
        (parseGGA tokens data).1.hdop = qtToDouble (tokens.getD 8 "") ∧
        (parseGGA tokens data).1.altitude = qtToDouble (tokens.getD 9 ""))
    ∧ isInvalidData (parseGGA gga51Tokens {}).2 = true
    ∧ isInvalidData (parseGGA ggaHdop0Tokens {}).2 = true
    ∧ (parseGGA ggaBoundTokens {}).2 = none
    ∧ (parseGGA ggaAlt10000Tokens {}).2 = none := by
  refine ⟨?_, parseGGA_none_fields tokens data, by decide, by decide, by decide, by decide⟩
  intro hout
  cases he : (parseGGA tokens data).2 with
  | none =>
    obtain ⟨r1, r2, r3, r4, r5, -⟩ := parseGGA_none_fields tokens data he
    rcases hout with h | h | h | h | h
    · omega
    · linarith
    · linarith
    · linarith
    · linarith
  | some e =>
    obtain ⟨m, hm⟩ := parseGGA_error_invalidData tokens data e hlen he
    rw [hm]
    rfl

/-- Witness for C2's amended theorem at a concrete out-of-range input
(HDOP token `"0"`). -/
theorem c2_range_checks_witness :
    isInvalidData (parseGGA ggaHdop0Tokens {}).2 = true :=
  (c2_range_checks ggaHdop0Tokens {} (by decide)).1 (by decide)

/-- C3: for GGA token lists with at least 10 fields that pass time and
coordinate parsing, the fix-quality code is mapped exactly per the fixed
table (0 to "No Fix", 1 to "GPS Fix", 2 to "DGPS Fix", 4 to "RTK Fix"),
and any other integer code raises the semantic
"Unknown fix quality code" error. -/
theorem c3_fix_quality_mapping (tokens : List String) (data : GNSSData) (lat lon : ℚ)
    (hlen : ¬ tokens.length < 10)
    (htime : ¬ qtSize (tokens.getD 1 "") < 6)
    (hlat : convertToDecimalDegrees (tokens.getD 2 "") (tokens.getD 3 "") = .ok lat)
    (hlon : convertToDecimalDegrees (tokens.getD 4 "") (tokens.getD 5 "") = .ok lon) :
    (qtToInt (tokens.getD 6 "") = 0 → (parseGGA tokens data).1.fixType = "No Fix")
    ∧ (qtToInt (tokens.getD 6 "") = 1 → (parseGGA tokens data).1.fixType = "GPS Fix")
    ∧ (qtToInt (tokens.getD 6 "") = 2 → (parseGGA tokens data).1.fixType = "DGPS Fix")
    ∧ (qtToInt (tokens.getD 6 "") = 4 → (parseGGA tokens data).1.fixType = "RTK Fix")
    ∧ (qtToInt (tokens.getD 6 "") ≠ 0 → qtToInt (tokens.getD 6 "") ≠ 1 →
        qtToInt (tokens.getD 6 "") ≠ 2 → qtToInt (tokens.getD 6 "") ≠ 4 →
        (parseGGA tokens data).2 = some (.invalidData
          ("Unknown fix quality code: " ++ toString (qtToInt (tokens.getD 6 ""))))) := by
  rw [parseGGA_eq_fixStep tokens data lat lon hlen htime hlat hlon]
  obtain ⟨m0, m1, m2, m4, me⟩ := ggaFixStep_map tokens _
  exact ⟨m0, m1, m2, m4, fun h0 h1 h2 h4 => by rw [me h0 h1 h2 h4]⟩

/-- Token list with fix-quality code 4. -/
def ggaRtkTokens : List String :=
  ["$GPGGA", "123519", "4807.038", "N", "11131.000", "E", "4", "08", "0.9", "545.4"]

/-- Witness for C3 at fix-quality code 4. -/
theorem c3_fix_quality_mapping_witness :
    (parseGGA ggaRtkTokens {}).1.fixType = "RTK Fix" :=
  (c3_fix_quality_mapping ggaRtkTokens {} (481173 / 10000) (6691 / 60)
    (by decide) (by decide) (by decide) (by decide)).2.2.2.1 (by decide)

/-- C8: a GGA token list with fewer than 10 fields, and a GSV token list
with fewer than 4 fields, each produce exactly the structural
`ParsingError` of the length check, with the record and the session
state returned unchanged — no field is read or validated. -/
theorem c8_short_frame_structural (tokens : List String) (data : GNSSData)
    (fuel : Nat) (st : GSVState) :
    (tokens.length < 10 →
      parseGGA tokens data = (data, some (.parsing "GGA frame too short: expected >=10 fields")))
    ∧ (tokens.length < 4 →
      parseGSV fuel tokens st =
        some (st, some (.parsing "GSV frame too short: expected >=4 fields"))) := by
  constructor
  · intro h
    simp only [parseGGA]
    rw [if_pos h]
  · intro h
    simp only [parseGSV]
    rw [if_pos h]

/-- Witness for C8 at one-token inputs. -/
theorem c8_short_frame_structural_witness :
    parseGGA ["$GPGGA"] {} =
      ({}, some (.parsing "GGA frame too short: expected >=10 fields")) ∧
    parseGSV 0 ["$GPGSV"] {} =
      some ({}, some (.parsing "GSV frame too short: expected >=4 fields")) :=
  ⟨(c8_short_frame_structural ["$GPGGA"] {} 0 {}).1 (by decide),
   (c8_short_frame_structural ["$GPGSV"] {} 0 {}).2 (by decide)⟩

/-- C9: with at least 10 fields and time/coordinate parsing succeeding,
an unparseable fix-quality token is not an error for that field:
`tokens[6].toInt()` yields 0, the fix-type label becomes "No Fix", and
the only errors that can still be raised are the later range checks. -/
theorem c9_unparseable_fix_quality_no_fix (tokens : List String) (data : GNSSData)
    (lat lon : ℚ)
    (hlen : ¬ tokens.length < 10)
    (htime : ¬ qtSize (tokens.getD 1 "") < 6)
    (hlat : convertToDecimalDegrees (tokens.getD 2 "") (tokens.getD 3 "") = .ok lat)
    (hlon : convertToDecimalDegrees (tokens.getD 4 "") (tokens.getD 5 "") = .ok lon)
    (hfix : qtToIntOpt (tokens.getD 6 "") = none) :
    qtToInt (tokens.getD 6 "") = 0 ∧
    (parseGGA tokens data).1.fixType = "No Fix" ∧
    ((parseGGA tokens data).2 = none ∨
     (parseGGA tokens data).2 = some (.invalidData "Number of satellites out of range") ∨
     (parseGGA tokens data).2 = some (.invalidData "HDOP value out of range") ∨
     (parseGGA tokens data).2 = some (.invalidData "Altitude out of realistic bounds")) := by
  have h0 : qtToInt (tokens.getD 6 "") = 0 := by
    simp only [qtToInt]
    rw [hfix]
    rfl
  refine ⟨h0, ?_, ?_⟩
  · rw [parseGGA_eq_fixStep tokens data lat lon hlen htime hlat hlon]
    exact (ggaFixStep_map tokens _).1 h0
  · rw [parseGGA_eq_fixStep tokens data lat lon hlen htime hlat hlon]
    simp only [ggaFixStep]
    rw [if_pos h0]
    exact ggaSatStep_snd_cases tokens _

/-- Token list whose fix-quality field is empty (unparseable). -/
def ggaEmptyFixTokens : List String :=
  ["$GPGGA", "123519", "4807.038", "N", "11131.000", "E", "", "08", "0.9", "545.4"]

/-- Witness for C9 at an empty fix-quality token. -/
theorem c9_unparseable_fix_quality_no_fix_witness :
    qtToInt (ggaEmptyFixTokens.getD 6 "") = 0 ∧
    (parseGGA ggaEmptyFixTokens {}).1.fixType = "No Fix" ∧
    ((parseGGA ggaEmptyFixTokens {}).2 = none ∨
     (parseGGA ggaEmptyFixTokens {}).2 = some (.invalidData "Number of satellites out of range") ∨
     (parseGGA ggaEmptyFixTokens {}).2 = some (.invalidData "HDOP value out of range") ∨
     (parseGGA ggaEmptyFixTokens {}).2 = some (.invalidData "Altitude out of realistic bounds")) :=
  c9_unparseable_fix_quality_no_fix ggaEmptyFixTokens {} (481173 / 10000) (6691 / 60)
    (by decide) (by decide) (by decide) (by decide) (by decide)

lemma convert_error_msgs (value direction : String) (e : NMEAError)
    (h : convertToDecimalDegrees value direction = .error e) :
    e = .invalidData "InvalidData: Empty latitude/longitude or direction" ∨
    e = .invalidData "InvalidData: String too short for degrees" ∨
    e = .invalidData "InvalidData: Conversion failed" := by
  unfold convertToDecimalDegrees at h
  split at h
  · exact Or.inl ((Except.error.injEq _ _).mp h.symm)
  · split at h
    · exact Or.inr (Or.inl ((Except.error.injEq _ _).mp h.symm))
    · split at h
      · exact absurd h (by simp)
      · exact Or.inr (Or.inr ((Except.error.injEq _ _).mp h.symm))

lemma unknown_fix_ne_time (s : String) :
    ("Unknown fix quality code: " ++ s : String) ≠ "Invalid UTC time in GGA frame" := by
  intro h
  have h2 := congrArg String.data h
  rw [String.data_append] at h2
  have h3 : ("Unknown fix quality code: " : String).data =
      'U' :: ("nknown fix quality code: " : String).data := rfl
  rw [h3] at h2
  have h4 : ("Invalid UTC time in GGA frame" : String).data =
      'I' :: ("nvalid UTC time in GGA frame" : String).data := rfl
  rw [h4, List.cons_append] at h2
  have h5 : ('U' : Char) = 'I' := ((List.cons.injEq _ _ _ _).mp h2).1
  exact absurd h5 (by decide)

lemma ggaFixStep_no_time_error (tokens : List String) (data : GNSSData) :
    (ggaFixStep tokens data).2 ≠ some (.invalidData "Invalid UTC time in GGA frame") := by
  intro h
  simp only [ggaFixStep] at h
  split_ifs at h
  · rcases ggaSatStep_error tokens _ _ h with h' | h' | h' <;> exact absurd h' (by decide)
  · rcases ggaSatStep_error tokens _ _ h with h' | h' | h' <;> exact absurd h' (by decide)
  · rcases ggaSatStep_error tokens _ _ h with h' | h' | h' <;> exact absurd h' (by decide)
  · rcases ggaSatStep_error tokens _ _ h with h' | h' | h' <;> exact absurd h' (by decide)
  · simp only [Prod.snd] at h
    have h' := (Option.some.injEq _ _).mp h
    have h'' := (NMEAError.invalidData.injEq _ _).mp h'
    exact unknown_fix_ne_time _ h''

lemma parseGGA_no_time_error (tokens : List String) (data : GNSSData)
    (hlen : ¬ tokens.length < 10)
    (hsz : ¬ qtSize (tokens.getD 1 "") < 6) :
    (parseGGA tokens data).2 ≠ some (.invalidData "Invalid UTC time in GGA frame") := by
  intro h
  rcases hc1 : convertToDecimalDegrees (tokens.getD 2 "") (tokens.getD 3 "") with e₁ | lat
  · simp only [parseGGA] at h
    rw [if_neg hlen, if_neg hsz, hc1] at h
    dsimp only at h
    have he := (Option.some.injEq _ _).mp h
    rcases convert_error_msgs _ _ _ hc1 with h' | h' | h' <;> rw [h'] at he <;>
      exact absurd he (by decide)
  · rcases hc2 : convertToDecimalDegrees (tokens.getD 4 "") (tokens.getD 5 "") with e₂ | lon
    · simp only [parseGGA] at h
      rw [if_neg hlen, if_neg hsz, hc1, hc2] at h
      dsimp only at h
      have he := (Option.some.injEq _ _).mp h
      rcases convert_error_msgs _ _ _ hc2 with h' | h' | h' <;> rw [h'] at he <;>
        exact absurd he (by decide)
    · rw [parseGGA_eq_fixStep tokens data lat lon hlen hsz hc1 hc2] at h
      exact ggaFixStep_no_time_error tokens _ h

/-- Token list whose time token is `"99XX19"`: the minute group `"XX"`
is non-numeric (parses as 0), but the numeric hour group `"99"` is out
of range, so `QTime(99, 0, 19)` is invalid. -/
def ggaBadTimeTokens : List String :=
  ["$GPGGA", "99XX19", "4807.038", "N", "11131.000", "E", "1", "08", "0.9", "545.4"]

/-- C10 counterexample: a GGA token list with at least 10 fields whose
time token has 6 characters and a non-numeric minute group, for which
`parseGGA` raises no error yet leaves the timestamp unset — the numeric
hour group `"99"` makes the assembled time-of-day invalid, contradicting
the claim that the timestamp is always set in this situation. -/
theorem c10_time_counterexample :
    ¬ ggaBadTimeTokens.length < 10 ∧
    ¬ qtSize (ggaBadTimeTokens.getD 1 "") < 6 ∧
    qtToIntOpt (qtMid (ggaBadTimeTokens.getD 1 "") 2 2) = none ∧
    (parseGGA ggaBadTimeTokens {}).2 = none ∧
    (parseGGA ggaBadTimeTokens {}).1.timestamp = none := by decide

/-- C10 as amended: with at least 10 fields, a time token of at least 6
characters, and at least one non-numeric 2-character group, each failing
group parses as 0; provided every group that does parse numerically lies
in its valid range, the resulting time-of-day is valid, the record's
timestamp is set to it (on the processing date, UTC), and no
"Invalid UTC time" error is raised. -/
theorem c10_unparseable_time_groups (tokens : List String) (data : GNSSData)
    (hlen : ¬ tokens.length < 10)
    (hsz : ¬ qtSize (tokens.getD 1 "") < 6)
    (_hfail : qtToIntOpt (qtMid (tokens.getD 1 "") 0 2) = none ∨
              qtToIntOpt (qtMid (tokens.getD 1 "") 2 2) = none ∨
              qtToIntOpt (qtMid (tokens.getD 1 "") 4 2) = none)
    (hh : qtToIntOpt (qtMid (tokens.getD 1 "") 0 2) = none ∨
          (0 ≤ ggaHour tokens ∧ ggaHour tokens ≤ 23))
    (hm : qtToIntOpt (qtMid (tokens.getD 1 "") 2 2) = none ∨
          (0 ≤ ggaMinute tokens ∧ ggaMinute tokens ≤ 59))
    (hs : qtToIntOpt (qtMid (tokens.getD 1 "") 4 2) = none ∨
          (0 ≤ ggaSecond tokens ∧ ggaSecond tokens ≤ 59)) :
    (parseGGA tokens data).1.timestamp =
      some ⟨ggaHour tokens, ggaMinute tokens, ggaSecond tokens⟩ ∧
    (parseGGA tokens data).2 ≠ some (.invalidData "Invalid UTC time in GGA frame") := by
  have hgroup : ∀ (p : Nat) (lo hi : Int), lo ≤ 0 → 0 ≤ hi →
      (qtToIntOpt (qtMid (tokens.getD 1 "") p 2) = none ∨
        (lo ≤ qtToInt (qtMid (tokens.getD 1 "") p 2) ∧
         qtToInt (qtMid (tokens.getD 1 "") p 2) ≤ hi)) →
      lo ≤ qtToInt (qtMid (tokens.getD 1 "") p 2) ∧
        qtToInt (qtMid (tokens.getD 1 "") p 2) ≤ hi := by
    intro p lo hi hlo hhi hcase
    rcases hcase with hnone | hval
    · have hz : qtToInt (qtMid (tokens.getD 1 "") p 2) = 0 := by
        simp only [qtToInt]
        rw [hnone]
        rfl
      rw [hz]
      exact ⟨hlo, hhi⟩
    · exact hval
  have hhv := hgroup 0 0 23 le_rfl (by norm_num) hh
  have hmv := hgroup 2 0 59 le_rfl (by norm_num) hm
  have hsv := hgroup 4 0 59 le_rfl (by norm_num) hs
  have hq : qtimeValid (ggaHour tokens) (ggaMinute tokens) (ggaSecond tokens) :=
    ⟨hhv.1, hhv.2, hmv.1, hmv.2, hsv.1, hsv.2⟩
  exact ⟨parseGGA_timestamp_valid tokens data hlen hsz hq,
    parseGGA_no_time_error tokens data hlen hsz⟩

/-- Token list whose time token `"ABCDEF"` has all three groups
non-numeric. -/
def ggaAllBadTimeTokens : List String :=
  ["$GPGGA", "ABCDEF", "4807.038", "N", "11131.000", "E", "1", "08", "0.9", "545.4"]

/-- Witness for C10's amended theorem at the time token `"ABCDEF"`. -/
theorem c10_unparseable_time_groups_witness :
    (parseGGA ggaAllBadTimeTokens {}).1.timestamp = some ⟨0, 0, 0⟩ ∧
    (parseGGA ggaAllBadTimeTokens {}).2 ≠
      some (.invalidData "Invalid UTC time in GGA frame") :=
  c10_unparseable_time_groups ggaAllBadTimeTokens {} (by decide) (by decide)
    (Or.inl (by decide)) (Or.inl (by decide)) (Or.inl (by decide)) (Or.inl (by decide))

/-- The record produced by the spec's first end-to-end GGA scenario. -/
def c4Record : GNSSData :=
  { satellites := 8, latitude := DVal.fin (481173 / 10000),
    longitude := DVal.fin (6691 / 60), altitude := 545.4, snrAvg := 0,
    hdop := 0.9, vdop := 0, satMap := [], fixType := "GPS Fix",
    timestamp := some ⟨12, 35, 19⟩ }

/-- C4: dispatching the literal line
`$GPGGA,123519,4807.038,N,11131.000,E,1,08,0.9,545.4,M,,*47` raises no
error and leaves the record with latitude within 0.002 of 48.1173,
longitude within 0.002 of 111.517, 8 satellites, fix label "GPS Fix",
altitude 545.4 and HDOP 0.9; the GSV session state is untouched. -/
theorem c4_end_to_end_gga (fuel : Nat) (st : GSVState) :
    ∃ d : GNSSData,
      parseLine fuel ggaLine {} st = some (d, st, none) ∧
      (∃ q, d.latitude = DVal.fin q ∧ ratAbs (q - 48.1173) < 0.002) ∧
      (∃ q, d.longitude = DVal.fin q ∧ ratAbs (q - 111.517) < 0.002) ∧
      d.satellites = 8 ∧ d.fixType = "GPS Fix" ∧ d.altitude = 545.4 ∧ d.hdop = 0.9 := by
  refine ⟨c4Record,
    ?_, ⟨481173 / 10000, by decide, by decide⟩, ⟨6691 / 60, by decide, by decide⟩,
    by decide, by decide, by decide, by decide⟩
  simp only [parseLine]
  rw [show DataType ggaLine = DATAType.GGA from by decide]
  dsimp only
  rw [show parseGGA (splitOnComma ggaLine) ({} : GNSSData) = (c4Record, none) from by decide]

/-- An 8-token GSV sentence: exactly one complete satellite 4-tuple. -/
def gsvLine8Tokens : List String :=
  ["$GPGSV", "3", "1", "12", "02", "65", "290", "42"]

lemma gsvLoop_stuck (tokens : List String) (fuel i : Nat) (m : List (Int × SATInfo))
    (h : i + 3 < tokens.length) : gsvLoop tokens fuel i m = none := by
  induction fuel generalizing m with
  | zero => rfl
  | succ n ih =>
    simp only [gsvLoop]
    rw [if_pos h, if_neg (by omega)]
    exact ih _

/-- C1 (the stride-advancement defect): the satellite-tuple loop's third
clause `i+4` never changes `i`, so on any GSV token list that contains
at least one complete 4-tuple (8 or more tokens) `parseGSV` loops
forever — it returns within no fuel bound whatsoever, refuting
termination; the spec's §9 documents exactly this defect. -/
theorem c1_gsv_loop_never_terminates (fuel : Nat) (tokens : List String) (st : GSVState)
    (h8 : 8 ≤ tokens.length) :
    parseGSV fuel tokens st = none := by
  simp only [parseGSV]
  rw [if_neg (by omega)]
  rw [gsvLoop_stuck tokens fuel 4 _ (by omega)]

/-- Witness for C1: the one-tuple GSV sentence is not parsed within 1000
iterations (nor any other bound). -/
theorem c1_gsv_loop_never_terminates_witness :
    parseGSV 1000 gsvLine8Tokens {} = none :=
  c1_gsv_loop_never_terminates 1000 gsvLine8Tokens {} (by decide)

lemma mapInsert_keeps (k : Int) (v : SATInfo) (m : List (Int × SATInfo)) (k' : Int)
    (h : (mapLookup k' m).isSome = true) :
    (mapLookup k' (mapInsert k v m)).isSome = true := by
  induction m with
  | nil => simp [mapLookup] at h
  | cons p rest ih =>
    obtain ⟨k₀, v₀⟩ := p
    simp only [mapInsert]
    by_cases hk : k = k₀
    · rw [if_pos hk]
      simp only [mapLookup]
      by_cases hk' : k' = k
      · rw [if_pos hk']
        rfl
      · rw [if_neg hk']
        simp only [mapLookup] at h
        rw [if_neg (by rw [← hk]; exact hk')] at h
        exact h
    · rw [if_neg hk]
      simp only [mapLookup] at h ⊢
      by_cases hk' : k' = k₀
      · rw [if_pos hk'] at h ⊢
        rfl
      · rw [if_neg hk'] at h ⊢
        exact ih h

lemma gsvLoop_keeps (tokens : List String) (fuel : Nat) (i : Nat)
    (m m' : List (Int × SATInfo)) (k : Int)
    (h : gsvLoop tokens fuel i m = some m')
    (hk : (mapLookup k m).isSome = true) :
    (mapLookup k m').isSome = true := by
  induction fuel generalizing m with
  | zero => exact absurd h (by simp [gsvLoop])
  | succ n ih =>
    simp only [gsvLoop] at h
    by_cases hc : i + 3 < tokens.length
    · rw [if_pos hc, if_neg (by omega)] at h
      rcases hid : qtToIntOpt (tokens.getD i "") with _ | id
      · rw [hid] at h
        exact ih _ h hk
      · rw [hid] at h
        dsimp only at h
        by_cases hle : id ≤ 0
        · rw [if_pos hle] at h
          exact ih _ h hk
        · rw [if_neg hle] at h
          exact ih _ h (mapInsert_keeps _ _ _ _ hk)
    · rw [if_neg hc] at h
      rw [← (Option.some.injEq _ _).mp h]
      exact hk

/-- C5: `parseGSV` clears the accumulation map and records the expected
message count exactly when the message-index field (token 2) is 1, and
at no other point: with message-index 1 the result is independent of the
incoming session state (so no satellite entry from an earlier sequence
survives), and on success the expected count is this sentence's
total-messages field; with any other message index the expected count is
unchanged and every previously present key is still present. -/
theorem c5_gsv_reset_exactly_on_first (fuel : Nat) (tokens : List String)
    (st st₂ : GSVState)
    (hlen : ¬ tokens.length < 4) :
    (qtToInt (tokens.getD 2 "") = 1 →
      parseGSV fuel tokens st = parseGSV fuel tokens st₂)
    ∧ (qtToInt (tokens.getD 2 "") = 1 →
        ∀ st' e, parseGSV fuel tokens st = some (st', e) →
          st'.expectedGSVParts = qtToInt (tokens.getD 1 ""))
    ∧ (qtToInt (tokens.getD 2 "") ≠ 1 →
        ∀ st' e, parseGSV fuel tokens st = some (st', e) →
          st'.expectedGSVParts = st.expectedGSVParts ∧
          ∀ k, (mapLookup k st.gsvTempSatellites).isSome = true →
            (mapLookup k st'.gsvTempSatellites).isSome = true) := by
  refine ⟨?_, ?_, ?_⟩
  · intro h1
    simp only [parseGSV]
    rw [if_neg hlen, if_neg hlen, if_pos h1, if_pos h1]
  · intro h1 st' e hres
    simp only [parseGSV] at hres
    rw [if_neg hlen, if_pos h1] at hres
    dsimp only at hres
    cases hloop : gsvLoop tokens fuel 4 ([] : List (Int × SATInfo)) with
    | none =>
      rw [hloop] at hres
      exact absurd hres (by simp)
    | some m =>
      rw [hloop] at hres
      dsimp only at hres
      have h2 := ((Prod.mk.injEq _ _ _ _).mp ((Option.some.injEq _ _).mp hres)).1
      rw [← h2]
  · intro h1 st' e hres
    simp only [parseGSV] at hres
    rw [if_neg hlen, if_neg h1] at hres
    cases hloop : gsvLoop tokens fuel 4 st.gsvTempSatellites with
    | none =>
      rw [hloop] at hres
      exact absurd hres (by simp)
    | some m =>
      rw [hloop] at hres
      dsimp only at hres
      have h2 := ((Prod.mk.injEq _ _ _ _).mp ((Option.some.injEq _ _).mp hres)).1
      rw [← h2]
      exact ⟨rfl, fun k hk => gsvLoop_keeps tokens fuel 4 _ m k hloop hk⟩

/-- A satellite entry left over from an earlier GSV sequence. -/
def staleInfo : SATInfo := ⟨DVal.fin 65, DVal.fin 290, DVal.fin 42⟩

/-- Session state holding one stale satellite (PRN 7) and expected count 3. -/
def gsvStaleState : GSVState := ⟨[(7, staleInfo)], 3⟩

/-- Header-only GSV sentence with message-index 1 (total 1 message). -/
def gsvHdrTokens : List String := ["$GPGSV", "1", "1", "01"]

/-- Header-only GSV sentence with message-index 2. -/
def gsvMsg2Tokens : List String := ["$GPGSV", "2", "2", "01"]

/-- Witness for C5: a message-index-1 sentence gives the same result
from a stale state as from the empty one and records expected count 1;
a message-index-2 sentence keeps the stale satellite present. -/
theorem c5_gsv_reset_exactly_on_first_witness :
    parseGSV 5 gsvHdrTokens gsvStaleState = parseGSV 5 gsvHdrTokens {} ∧
    (⟨[], 1⟩ : GSVState).expectedGSVParts = qtToInt (gsvHdrTokens.getD 1 "") ∧
    (mapLookup 7 gsvStaleState.gsvTempSatellites).isSome = true :=
  ⟨(c5_gsv_reset_exactly_on_first 5 gsvHdrTokens gsvStaleState {} (by decide)).1 (by decide),
   (c5_gsv_reset_exactly_on_first 5 gsvHdrTokens gsvStaleState {} (by decide)).2.1 (by decide)
     ⟨[], 1⟩ none (by decide),
   ((c5_gsv_reset_exactly_on_first 5 gsvMsg2Tokens gsvStaleState {} (by decide)).2.2 (by decide)
     gsvStaleState none (by decide)).2 7 (by decide)⟩
